import Mathlib

/-!
Verification development for the interview orchestration and heuristic
scoring engine (backend/app/routes/interview_routes.py and
backend/app/utils.py).  The Python source is shallowly embedded: pure
functions become Lean functions, Python floats are modelled as exact
rationals, `int(x)` is truncation toward zero, `round` is round-half-to-even,
and fallible operations return `Option` / `Except`.
-/

namespace Interview

/-- Characters stripped by Python `str.strip()` (ASCII whitespace). -/
def isPyWs (c : Char) : Bool :=
  c = ' ' || c = '\t' || c = '\n' || c = '\x0d' || c = '\x0b' || c = '\x0c'

/-- Model of Python `str.strip()` on a character list. -/
def stripChars (cs : List Char) : List Char :=
  ((cs.dropWhile isPyWs).reverse.dropWhile isPyWs).reverse

/-- Model of Python `str.strip()`. -/
def pyStrip (s : String) : String :=
  String.mk (stripChars s.toList)

/-- Model of Python `str.lower()` (ASCII case folding suffices here). -/
def pyLower (s : String) : String :=
  String.mk (s.toList.map Char.toLower)

/-- Word character for the regex `\w` (ASCII model: alphanumeric or underscore). -/
def isWordChar (c : Char) : Bool :=
  c.isAlphanum || c = '_'

/-- Fuel-bounded body of `findWordRuns`; the fuel strictly exceeds the input
length, so the bound is never hit. -/
def findWordRunsF : Nat → List Char → List String
  | 0, _ => []
  | _, [] => []
  | fuel + 1, c :: cs =>
    if isWordChar c then
      String.mk (c :: cs.takeWhile isWordChar) :: findWordRunsF fuel (cs.dropWhile isWordChar)
    else
      findWordRunsF fuel cs

/-- Model of `re.findall(r"\w+", s)`: maximal runs of word characters. -/
def findWordRuns (cs : List Char) : List String :=
  findWordRunsF (cs.length + 1) cs

/-- Tokenization used throughout `utils.py`: `re.findall(r"\w+", text.lower())`. -/
def tokenizeLower (s : String) : List String :=
  findWordRuns (s.toList.map Char.toLower)

/-- Substring test: Python `needle in hay` on strings. -/
def listSubstr (need : List Char) : List Char → Bool
  | [] => need.isEmpty
  | c :: rest => need.isPrefixOf (c :: rest) || listSubstr need rest

/-- Substring membership, Python `a in b` for strings. -/
def pyIn (need hay : String) : Bool :=
  listSubstr need.toList hay.toList

/-- Fuel-bounded body of `countSub`. -/
def countSubF (need : List Char) : Nat → List Char → Nat
  | 0, _ => 0
  | _, [] => 0
  | fuel + 1, c :: rest =>
    if need ≠ [] ∧ need.isPrefixOf (c :: rest) then
      1 + countSubF need fuel ((c :: rest).drop need.length)
    else
      countSubF need fuel rest

/-- Count of non-overlapping occurrences, Python `hay.count(need)` for
nonempty `need`. -/
def countSub (need cs : List Char) : Nat :=
  countSubF need (cs.length + 1) cs

/-- String version of `countSub`. -/
def pyCount (hay need : String) : Nat :=
  countSub need.toList hay.toList

/-- Fuel-bounded body of `pyDedup`. -/
def pyDedupF : Nat → List String → List String
  | 0, _ => []
  | _, [] => []
  | fuel + 1, x :: xs => x :: pyDedupF fuel (xs.filter (fun y => y ≠ x))

/-- First-occurrence deduplication, Python `list(dict.fromkeys(l))`. -/
def pyDedup (l : List String) : List String :=
  pyDedupF (l.length + 1) l

/-- Floor of a rational as an integer (`num.fdiv den`, the denominator being
positive). -/
def ratFloor (q : ℚ) : ℤ :=
  q.num.fdiv (q.den : ℤ)

/-- Truncation toward zero, the behaviour of Python `int()` on a float
(`Int.tdiv` truncates toward zero and the denominator is positive). -/
def ratTrunc (q : ℚ) : ℤ :=
  q.num.tdiv (q.den : ℤ)

/-- Round half to even, Python `round(x)`. -/
def pyRound (q : ℚ) : ℤ :=
  let f : ℤ := ratFloor q
  let r : ℚ := q - (f : ℚ)
  if r < 1/2 then f
  else if 1/2 < r then f + 1
  else if f % 2 = 0 then f else f + 1

/-- Round half to even at three decimal places, Python `round(x, 3)`. -/
def pyRound3 (q : ℚ) : ℚ :=
  (pyRound (q * 1000) : ℚ) / 1000

/-- Dynamically typed scalar value as it may arrive from an LLM-produced JSON
object (Python object stored under a score key). -/
inductive PyVal where
  | vint (n : ℤ)
  | vfloat (q : ℚ)
  | vstr (s : String)
  | vnone
deriving DecidableEq, Repr

/-- Digit-string parse used to model Python `int(str)`. -/
def digitsToNat : List Char → Option Nat
  | [] => none
  | cs =>
    if cs.all Char.isDigit then
      some (cs.foldl (fun acc c => acc * 10 + (c.toNat - 48)) 0)
    else
      none

/-- Model of Python `int(s)` for a string: optional sign, digits, surrounding
whitespace; anything else raises (`none`). -/
def pyIntOfStr (s : String) : Option ℤ :=
  match stripChars s.toList with
  | '-' :: rest => (digitsToNat rest).map (fun n => -(n : ℤ))
  | '+' :: rest => (digitsToNat rest).map (fun n => (n : ℤ))
  | rest => (digitsToNat rest).map (fun n => (n : ℤ))

/-- Model of Python `int(x)`; `none` means the call raises. -/
def pyToInt : PyVal → Option ℤ
  | .vint n => some n
  | .vfloat q => some (ratTrunc q)
  | .vstr s => pyIntOfStr s
  | .vnone => none

/-- Python truthiness of a `PyVal`. -/
def pyTruthy : PyVal → Bool
  | .vint n => n ≠ 0
  | .vfloat q => q ≠ 0
  | .vstr s => s ≠ ""
  | .vnone => false

/-- Model of `_normalize_int_safe` (interview_routes.py:309-313):
`max(0, min(100, int(x)))`, or `0` when `int(x)` raises. -/
def normalize_int_safe (x : PyVal) : ℤ :=
  match pyToInt x with
  | some n => max 0 (min 100 n)
  | none => 0

/-! Model of `difflib.SequenceMatcher(None, a, b).ratio()` (CPython, autojunk
on, no junk predicate), used by `_similarity_ratio` in utils.py. -/

/-- Ascending positions of a character in `b` (the `b2j` index of difflib). -/
def positionsOf (b : List Char) (c : Char) : List Nat :=
  (b.enum.filter (fun p => p.2 = c)).map Prod.fst

/-- Autojunk rule of CPython difflib: for `len(b) >= 200`, characters occurring
more than `len(b) // 100 + 1` times are dropped from the position index. -/
def isPopular (b : List Char) (c : Char) : Bool :=
  200 ≤ b.length && b.length / 100 + 1 < b.count c

/-- Position index `b2j` with popular entries removed. -/
def b2jOf (b : List Char) (c : Char) : List Nat :=
  if isPopular b c then [] else positionsOf b c

/-- Lookup in the `j2len` association list; a missing key counts as 0. -/
def lookupD (l : List (Nat × Nat)) (k : Nat) : Nat :=
  match l.find? (fun p => p.1 = k) with
  | some p => p.2
  | none => 0

/-- Best match candidate of `find_longest_match`. -/
structure LMBest where
  besti : Nat
  bestj : Nat
  bestsize : Nat
deriving Repr

/-- Inner loop of `find_longest_match` for one position `i` of `a`: fold over
the candidate `j` positions, building the new `j2len` table and updating the
best block (strict improvement only, so earliest block wins ties). -/
def flmInner (j2len : List (Nat × Nat)) (i : Nat) (js : List Nat) (best : LMBest) :
    List (Nat × Nat) × LMBest :=
  js.foldl
    (fun acc j =>
      let k := (if j = 0 then 0 else lookupD j2len (j - 1)) + 1
      (⟨(j, k) :: acc.1,
        if acc.2.bestsize < k then ⟨i + 1 - k, j + 1 - k, k⟩ else acc.2⟩ :
        List (Nat × Nat) × LMBest))
    ([], best)

/-- Main loop of `find_longest_match` over `a[alo:ahi]` and `b[blo:bhi]`. -/
def flmMain (b2j : Char → List Nat) (a : List Char) (alo ahi blo bhi : Nat) : LMBest :=
  (((a.drop alo).take (ahi - alo)).enum.foldl
    (fun (st : List (Nat × Nat) × LMBest) p =>
      let i := alo + p.1
      let js := (b2j p.2).filter (fun j => blo ≤ j && j < bhi)
      flmInner st.1 i js st.2)
    ([], ⟨alo, blo, 0⟩)).2

/-- Length of the longest common prefix of two character lists. -/
def commonPrefixLen : List Char → List Char → Nat
  | a :: as, b :: bs => if a = b then 1 + commonPrefixLen as bs else 0
  | _, _ => 0

/-- Model of `find_longest_match`: main loop, then the junk-free extension
loops (the junk set is empty, so they extend while characters are equal; the
popular-extension loops can then never fire). Returns `(i, j, size)`. -/
def findLongestMatch (b2j : Char → List Nat) (a b : List Char)
    (alo ahi blo bhi : Nat) : Nat × Nat × Nat :=
  let best := flmMain b2j a alo ahi blo bhi
  let el := commonPrefixLen ((a.drop alo).take (best.besti - alo)).reverse
    ((b.drop blo).take (best.bestj - blo)).reverse
  let bi := best.besti - el
  let bj := best.bestj - el
  let sz := best.bestsize + el
  let er := commonPrefixLen ((a.drop (bi + sz)).take (ahi - (bi + sz)))
    ((b.drop (bj + sz)).take (bhi - (bj + sz)))
  (bi, bj, sz + er)

/-- Total size of all matching blocks (the `matches` count of `ratio()`),
computed by the recursive block split of `get_matching_blocks`.  The fuel
strictly exceeds any possible recursion depth. -/
def matchTotal (b2j : Char → List Nat) (a b : List Char) :
    Nat → Nat → Nat → Nat → Nat → Nat
  | 0, _, _, _, _ => 0
  | fuel + 1, alo, ahi, blo, bhi =>
    let r := findLongestMatch b2j a b alo ahi blo bhi
    if r.2.2 = 0 then 0
    else
      matchTotal b2j a b fuel alo r.1 blo r.2.1 + r.2.2 +
        matchTotal b2j a b fuel (r.1 + r.2.2) ahi (r.2.1 + r.2.2) bhi

/-- Model of `SequenceMatcher(None, a, b).ratio() = 2*M/T` (1 when `T = 0`). -/
def seqRatio (a b : List Char) : ℚ :=
  let la := a.length
  let lb := b.length
  let m := matchTotal (b2jOf b) a b (la + lb + 1) 0 la 0 lb
  if la + lb = 0 then 1 else (2 * m : ℚ) / ((la : ℚ) + (lb : ℚ))

/-- Model of `_similarity_ratio` (utils.py:122-126); the Lean model never
raises, so the `except` branch is unreachable. -/
def similarityScore (a b : String) : ℚ :=
  seqRatio a.toList b.toList

/-! Model of utils.py: constants and the heuristic answer scorer. -/

/-- FILLER_WORDS set from utils.py (order immaterial, it is only summed over). -/
def FILLER_WORDS : List String :=
  ["um", "uh", "hmm", "like", "you know", "so", "actually", "basically", "right", "okay"]

/-- TECH_TERMS list from utils.py. -/
def TECH_TERMS : List String :=
  ["algorithm", "complexity", "big o", "optimization", "optimize", "scale", "scalability",
   "latency", "throughput", "index", "sql", "normaliz", "thread", "deadlock", "concurrency",
   "asynchronous", "hash", "queue", "stack", "graph", "tree", "database", "cache", "redis",
   "docker", "kubernetes", "api", "endpoint", "http", "tcp", "udp", "encryption", "oauth"]

/-- COMMON_QUESTIONS from utils.py, keyed by topic. -/
def COMMON_QUESTIONS (topic : String) : List String :=
  if topic = "OOP" then
    ["Explain the four pillars of OOP with short examples.",
     "What is polymorphism? Give a short example.",
     "Explain inheritance vs composition."]
  else if topic = "DBMS" then
    ["What is normalization and why is it important?",
     "Explain ACID properties."]
  else if topic = "OS" then
    ["What is a process vs a thread?",
     "Explain deadlock and how to prevent it."]
  else if topic = "CN" then
    ["Explain the TCP three-way handshake.",
     "What is latency vs bandwidth?"]
  else []

/-- Resume digest as produced by `parse_resume_text` (its `raw` entry is not
used by the question generator and is omitted). -/
structure Parsed where
  skills : List String
  projects : List String
  keywords : List String
deriving DecidableEq, Repr

/-- Model of `generate_questions_from_parsed` (utils.py:87-100). -/
def generate_questions_from_parsed (parsed : Parsed) (max_questions : Nat := 12) :
    List String :=
  let projQs := (parsed.projects.take 4).flatMap (fun proj =>
    ["Tell me about this project: " ++ String.mk (proj.toList.take 200) ++
       ". What was your role and the key technical challenges?",
     "For that project, how did you design the core module and how did you test it?"])
  let skillQs := (parsed.skills.take 6).map (fun s =>
    "You listed \x27" ++ s ++ "\x27. Explain an important technical concept related to " ++
      s ++ ".")
  let kwQs := (parsed.keywords.take 4).map (fun kw =>
    "Quick question: explain " ++ kw ++ " in brief.")
  let topicQs := (["OOP", "DBMS", "OS", "CN"].flatMap (fun t => (COMMON_QUESTIONS t).take 2))
  (projQs ++ skillQs ++ kwQs ++ topicQs).take max_questions

/-- Model of `_keyword_match_score` (utils.py:107-119).  Note the generator
expression `any((t == e) for t in text_tokens for e in e_toks)` rebinds `e`
locally, so the first test compares tokens against the word runs of the
expected keyword, while the `elif` substring test uses the whole keyword. -/
def keyword_match_score (expected : List String) (text_tokens : List String) : ℚ :=
  if expected = [] then 0
  else
    let expected_norm := (expected.filter (fun e => pyStrip e ≠ "")).map pyLower
    let nmatched := (expected_norm.filter (fun e =>
      let e_toks := findWordRuns e.toList
      (text_tokens.any (fun t => e_toks.any (fun et => t = et))) ||
        (text_tokens.any (fun t => pyIn e t)))).length
    (nmatched : ℚ) / (max 1 expected_norm.length : ℚ)

/-- Transcript metadata dictionary: only the `text` and `duration` entries are
read by the engine; the model restricts `duration` to a numeric value or an
absent key (anything else would make `float()` raise). `none` at the outer
level models an absent or empty (falsy) dictionary. -/
structure TranscriptMeta where
  text : Option String
  duration : Option ℚ
deriving DecidableEq, Repr

/-- Sentence delimiter class of the regex `[.!?]+`. -/
def isSentDelim (c : Char) : Bool :=
  c = '.' || c = '!' || c = '?'

/-- Fuel-bounded body of `splitSentences`. -/
def splitSentencesF : Nat → List Char → List Char → List (List Char)
  | 0, _, cur => [cur.reverse]
  | _, [], cur => [cur.reverse]
  | fuel + 1, c :: rest, cur =>
    if isSentDelim c then
      cur.reverse :: splitSentencesF fuel (rest.dropWhile isSentDelim) []
    else
      splitSentencesF fuel rest (c :: cur)

/-- Model of `re.split(r"[.!?]+", s)`: split on maximal delimiter runs. -/
def splitSentences (cs : List Char) : List (List Char) :=
  splitSentencesF (cs.length + 1) cs []

/-- Speech metadata block of a ScoreResult (utils.py:240-247). -/
structure SpeechMeta where
  duration : Option ℚ
  wpm : Option ℤ
  filler_count : Nat
  word_count : Nat
  lexical_diversity : ℚ
  sentence_count : Nat
deriving DecidableEq, Repr

/-- Meta block of a ScoreResult (utils.py:248-251). -/
structure MetaStats where
  keyword_ratio : ℚ
  tech_hits : Nat
deriving DecidableEq, Repr

/-- ScoreResult: the structured result of `score_answer_text`. -/
structure ScoreResult where
  overall_score : ℤ
  technical : ℤ
  communication : ℤ
  depth : ℤ
  resume_match : ℤ
  resume_bonus : ℤ
  strengths : List String
  weaknesses : List String
  tips : List String
  speech_meta : SpeechMeta
  meta : MetaStats
deriving DecidableEq, Repr

/-- Model of `score_answer_text` (utils.py:129-264).  Floats are modelled as
exact rationals, `int()` as truncation toward zero and `round` as
round-half-to-even. -/
def score_answer_text (answer : String) (expected_keywords : List String)
    (transcript_meta : Option TranscriptMeta)
    (resume_keywords : List String := []) : ScoreResult :=
  let a := pyStrip answer
  let text_lower := pyLower a
  let tokens := tokenizeLower a
  let word_count := tokens.length
  let sentence_count :=
    ((splitSentences a.toList).filter (fun seg => pyStrip (String.mk seg) ≠ "")).length
  let unique_words := (pyDedup tokens).length
  let lexical_diversity : ℚ :=
    if 0 < word_count then (unique_words : ℚ) / (word_count : ℚ) else 0
  let filler_count := (FILLER_WORDS.map (fun f => pyCount text_lower f)).sum
  let kw_ratio := keyword_match_score expected_keywords tokens
  let res_ratio : ℚ :=
    if resume_keywords ≠ [] then
      let rw := (resume_keywords.filter (fun r => 1 < (pyStrip r).length)).map pyLower
      if rw ≠ [] then
        ((rw.filter (fun r => tokens.any (fun t => pyIn r t))).length : ℚ) /
          (max 1 rw.length : ℚ)
      else 0
    else
      if expected_keywords ≠ [] then
        similarityScore (pyLower (String.intercalate (" ") expected_keywords)) text_lower
      else 0
  let tech_hits := (TECH_TERMS.filter (fun t => pyIn t text_lower)).length
  let depth_score : ℤ :=
    min 100 (ratTrunc (kw_ratio * 60 + (tech_hits : ℚ) * 5 + (min 1 lexical_diversity) * 20))
  let technical_score : ℤ :=
    min 100 (ratTrunc (kw_ratio * 70 + (tech_hits : ℚ) * 7 + (depth_score : ℚ) * (1/10)))
  let durationOpt : Option ℚ := transcript_meta.map (fun m => m.duration.getD 0)
  let wpm : Option ℤ :=
    match durationOpt with
    | some d => if 0 < d then some (ratTrunc ((word_count : ℚ) / d * 60)) else none
    | none => none
  let comm_base : ℤ :=
    min 100 (ratTrunc (lexical_diversity * 100 * (6/10) +
      (min 1 ((sentence_count : ℚ) / 3)) * 40))
  let comm_penalty : ℤ := min 30 ((filler_count : ℤ) * 4)
  let comm0 : ℤ := max 0 (comm_base - comm_penalty)
  let comm_score : ℤ :=
    match wpm with
    | some w =>
      if w ≠ 0 then
        if 100 ≤ w ∧ w ≤ 200 then min 100 (comm0 + 8)
        else if 240 < w then max 0 (comm0 - 8)
        else comm0
      else comm0
    | none => comm0
  let resume_match : ℤ := ratTrunc (min 100 (res_ratio * 100))
  let resume_bonus : ℤ := min 10 (ratTrunc ((resume_match : ℚ) / 10))
  let overall : ℤ :=
    max 0 (min 100 (pyRound ((6/10) * (technical_score : ℚ) +
      (3/10) * (comm_score : ℚ) + (1/10) * (resume_match : ℚ))))
  let strengths :=
    (if 65 < technical_score then ["Good technical coverage"] else []) ++
    (if 60 < depth_score then ["Shows conceptual depth"] else []) ++
    (if 60 < comm_score then ["Clear communicator"] else [])
  let weaknesses :=
    (if technical_score < 40 then
      ["Weak technical details — expand on steps and algorithms"] else []) ++
    (if resume_match < 30 then
      ["Answer doesn\x27t reference resume or project specifics"] else []) ++
    (if comm_score < 30 then ["Clarity and pacing issues"] else [])
  let tips :=
    (if technical_score < 40 then
      ["Describe the design choices and algorithmic complexity (Big-O)."] else []) ++
    (if resume_match < 30 then
      ["Link your answer to specific project tasks, numbers, or modules from your resume."]
     else []) ++
    (if comm_score < 30 then
      ["Speak slower, organize answers: Problem → Approach → Result."] else [])
  { overall_score := overall
    technical := technical_score
    communication := comm_score
    depth := depth_score
    resume_match := resume_match
    resume_bonus := resume_bonus
    strengths := strengths
    weaknesses := weaknesses
    tips := tips
    speech_meta :=
      { duration := durationOpt
        wpm := wpm
        filler_count := filler_count
        word_count := word_count
        lexical_diversity := pyRound3 lexical_diversity
        sentence_count := sentence_count }
    meta := { keyword_ratio := pyRound3 kw_ratio, tech_hits := tech_hits } }

/-! Model of JSON values and `json.loads`, needed by the response
normalization helpers `_try_parse_json_string` and `_unwrap_llm_resp`. -/

/-- JSON value (CPython `json.loads` result).  The nonstandard CPython
extensions `NaN`/`Infinity` are not modelled; no input in this development
uses them. -/
inductive JVal where
  | jnull
  | jbool (b : Bool)
  | jnum (q : ℚ)
  | jstr (s : String)
  | jarr (xs : List JVal)
  | jobj (kvs : List (String × JVal))
deriving Repr

/-- JSON whitespace. -/
def isJsonWs (c : Char) : Bool :=
  c = ' ' || c = '\t' || c = '\n' || c = '\x0d'

/-- Drop leading JSON whitespace. -/
def skipWs (cs : List Char) : List Char :=
  cs.dropWhile isJsonWs

/-- Hex digit test. -/
def isHexDig (c : Char) : Bool :=
  c.isDigit || ('a' ≤ c.toLower && c.toLower ≤ 'f')

/-- Value of a hex digit. -/
def hexVal (c : Char) : Nat :=
  if c.isDigit then c.toNat - 48 else c.toLower.toNat - 87

/-- Simple escape characters of JSON strings. -/
def escChar (c : Char) : Option Char :=
  if c = '"' then some '"'
  else if c = '\\' then some '\\'
  else if c = '/' then some '/'
  else if c = 'b' then some '\x08'
  else if c = 'f' then some '\x0c'
  else if c = 'n' then some '\n'
  else if c = 'r' then some '\x0d'
  else if c = 't' then some '\t'
  else none

/-- Parse a JSON string body (the opening quote already consumed); returns the
decoded characters and the rest of the input.  A `\uXXXX` escape becomes the
corresponding character (surrogate pairs are not recombined; no input here
uses them). -/
def parseStrBodyF : Nat → List Char → Option (List Char × List Char)
  | 0, _ => none
  | _, [] => none
  | fuel + 1, c :: rest =>
    if c = '"' then some ([], rest)
    else if c = '\\' then
      match rest with
      | [] => none
      | e :: rest2 =>
        if e = 'u' then
          match rest2 with
          | h1 :: h2 :: h3 :: h4 :: rest3 =>
            if isHexDig h1 && isHexDig h2 && isHexDig h3 && isHexDig h4 then
              (parseStrBodyF fuel rest3).map (fun p =>
                (Char.ofNat (((hexVal h1 * 16 + hexVal h2) * 16 + hexVal h3) * 16 + hexVal h4)
                  :: p.1, p.2))
            else none
          | _ => none
        else
          match escChar e with
          | some ec => (parseStrBodyF fuel rest2).map (fun p => (ec :: p.1, p.2))
          | none => none
    else (parseStrBodyF fuel rest).map (fun p => (c :: p.1, p.2))

/-- Fuel wrapper; the fuel strictly exceeds the input length. -/
def parseStrBody (cs : List Char) : Option (List Char × List Char) :=
  parseStrBodyF (cs.length + 1) cs

/-- Numeric value of a digit run. -/
def digitsVal (cs : List Char) : Nat :=
  cs.foldl (fun acc c => acc * 10 + (c.toNat - 48)) 0

/-- Parse a JSON number (strict grammar: optional minus, no leading zeros,
optional fraction and exponent). -/
def parseNum (cs : List Char) : Option (ℚ × List Char) :=
  let signed := match cs with
    | '-' :: r => (true, r)
    | _ => (false, cs)
  let neg := signed.1
  let cs1 := signed.2
  match cs1 with
  | [] => none
  | d :: _ =>
    if !d.isDigit then none
    else
      let intDigits := cs1.takeWhile Char.isDigit
      let rest1 := cs1.dropWhile Char.isDigit
      if 1 < intDigits.length && d = '0' then none
      else
        let ip : ℚ := (digitsVal intDigits : ℚ)
        let fracStep : Option (ℚ × List Char) :=
          match rest1 with
          | '.' :: r2 =>
            let fd := r2.takeWhile Char.isDigit
            if fd = [] then none
            else some (ip + (digitsVal fd : ℚ) / ((10 : ℚ) ^ fd.length), r2.dropWhile Char.isDigit)
          | _ => some (ip, rest1)
        match fracStep with
        | none => none
        | some (v, rest2) =>
          let expStep : Option (ℚ × List Char) :=
            match rest2 with
            | e :: r3 =>
              if e = 'e' || e = 'E' then
                let esigned := match r3 with
                  | '+' :: r4 => (false, r4)
                  | '-' :: r4 => (true, r4)
                  | _ => (false, r3)
                let ed := esigned.2.takeWhile Char.isDigit
                if ed = [] then none
                else
                  let ev : ℤ := if esigned.1 then -(digitsVal ed : ℤ) else (digitsVal ed : ℤ)
                  some (v * (10 : ℚ) ^ ev, esigned.2.dropWhile Char.isDigit)
              else some (v, rest2)
            | [] => some (v, rest2)
          match expStep with
          | none => none
          | some (v2, rest3) => some (if neg then -v2 else v2, rest3)

mutual

/-- Parse one JSON value, fuel-bounded (the fuel strictly exceeds any
possible nesting, so with enough fuel this is exactly the JSON grammar). -/
def parseJVal : Nat → List Char → Option (JVal × List Char)
  | 0, _ => none
  | fuel + 1, cs0 =>
    match skipWs cs0 with
    | [] => none
    | c :: rest =>
      if c = '{' then
        match skipWs rest with
        | '}' :: r2 => some (.jobj [], r2)
        | r2 => (parseObjItems fuel r2).map (fun p => (JVal.jobj p.1, p.2))
      else if c = '[' then
        match skipWs rest with
        | ']' :: r2 => some (.jarr [], r2)
        | r2 => (parseArrItems fuel r2).map (fun p => (JVal.jarr p.1, p.2))
      else if c = '"' then
        (parseStrBody rest).map (fun p => (JVal.jstr (String.mk p.1), p.2))
      else if c = 't' then
        if rest.take 3 = ['r', 'u', 'e'] then some (.jbool true, rest.drop 3) else none
      else if c = 'f' then
        if rest.take 4 = ['a', 'l', 's', 'e'] then some (.jbool false, rest.drop 4) else none
      else if c = 'n' then
        if rest.take 3 = ['u', 'l', 'l'] then some (.jnull, rest.drop 3) else none
      else
        (parseNum (c :: rest)).map (fun p => (JVal.jnum p.1, p.2))

/-- Parse the items of a nonempty JSON array (after `[`). -/
def parseArrItems : Nat → List Char → Option (List JVal × List Char)
  | 0, _ => none
  | fuel + 1, cs =>
    match parseJVal fuel cs with
    | none => none
    | some (v, r) =>
      match skipWs r with
      | ',' :: r2 => (parseArrItems fuel r2).map (fun p => (v :: p.1, p.2))
      | ']' :: r2 => some ([v], r2)
      | _ => none

/-- Parse the members of a nonempty JSON object (after `\x7b`). -/
def parseObjItems : Nat → List Char → Option (List (String × JVal) × List Char)
  | 0, _ => none
  | fuel + 1, cs =>
    match skipWs cs with
    | '"' :: r =>
      match parseStrBody r with
      | none => none
      | some (kcs, r2) =>
        match skipWs r2 with
        | ':' :: r3 =>
          match parseJVal fuel r3 with
          | none => none
          | some (v, r4) =>
            match skipWs r4 with
            | ',' :: r5 =>
              (parseObjItems fuel r5).map (fun p => ((String.mk kcs, v) :: p.1, p.2))
            | '}' :: r5 => some ([(String.mk kcs, v)], r5)
            | _ => none
        | _ => none
    | _ => none

end

/-- Model of `json.loads`: parse one value, allow surrounding whitespace only. -/
def pyJsonLoads (s : String) : Option JVal :=
  match parseJVal (s.toList.length + 2) s.toList with
  | some (v, rest) => if skipWs rest = [] then some v else none
  | none => none

/-- Lookup in a JSON object; with duplicate keys the last occurrence wins,
like a Python dict built from the parse. -/
def jGet (kvs : List (String × JVal)) (k : String) : Option JVal :=
  (kvs.reverse.find? (fun p => p.1 = k)).map Prod.snd

/-- Key membership, Python `k in d`. -/
def jHasKey (kvs : List (String × JVal)) (k : String) : Bool :=
  kvs.any (fun p => p.1 = k)

/-- Python truthiness of a JSON value. -/
def jTruthy : JVal → Bool
  | .jnull => false
  | .jbool b => b
  | .jnum q => q ≠ 0
  | .jstr s => s ≠ ""
  | .jarr xs => !xs.isEmpty
  | .jobj kvs => !kvs.isEmpty

/-- Python `a or b` over optional JSON values (an absent key is `None`). -/
def pyOr (a b : Option JVal) : Option JVal :=
  match a with
  | some v => if jTruthy v then some v else b
  | none => b

/-- Position of the first regex-match start for
`(\{(?:.|\n)*\}|\[(?:.|\n)*\])`: the first index holding `\x7b` with a later
`\x7d`, or `[` with a later `]`; the Bool is true for the brace alternative. -/
def findSpanStart : List Char → Option (Nat × Bool)
  | [] => none
  | c :: rest =>
    if c = '{' && rest.contains '}' then some (0, true)
    else if c = '[' && rest.contains ']' then some (0, false)
    else (findSpanStart rest).map (fun p => (p.1 + 1, p.2))

/-- Index of the last occurrence of a character. -/
def lastIdxOf (c : Char) (cs : List Char) : Option Nat :=
  ((cs.enum.filter (fun p => p.2 = c)).map Prod.fst).getLast?

/-- Model of the greedy span extraction
`re.search(r'(\{(?:.|\n)*\}|\[(?:.|\n)*\])', s, re.DOTALL)`: leftmost start,
then greedily to the last matching closer. -/
def extractSpan (full : List Char) : Option (List Char) :=
  match findSpanStart full with
  | none => none
  | some (i, isBrace) =>
    match full.drop i with
    | [] => none
    | c :: rest =>
      match lastIdxOf (if isBrace then '}' else ']') rest with
      | none => none
      | some k => some (c :: rest.take (k + 1))

/-- Fuel-bounded body of `replaceChars`. -/
def replaceCharsF (old new : List Char) : Nat → List Char → List Char
  | 0, cs => cs
  | _, [] => []
  | fuel + 1, c :: rest =>
    if old ≠ [] ∧ old.isPrefixOf (c :: rest) then
      new ++ replaceCharsF old new fuel ((c :: rest).drop old.length)
    else
      c :: replaceCharsF old new fuel rest

/-- Model of Python `str.replace(old, new)` for nonempty `old`: left-to-right
non-overlapping replacement. -/
def pyReplace (s old new : String) : String :=
  String.mk (replaceCharsF old.toList new.toList (s.toList.length + 1) s.toList)

/-- Model of `_try_parse_json_string` (interview_routes.py:226-253). -/
def try_parse_json_string (s : String) : Option JVal :=
  if s = "" then none
  else
    let s1 := pyStrip s
    match pyJsonLoads s1 with
    | some v => some v
    | none =>
      let s2 := pyStrip (pyReplace (pyReplace s1 ("```json") ("")) ("```") (""))
      match pyJsonLoads s2 with
      | some v => some v
      | none =>
        match extractSpan s1.toList with
        | some cand => pyJsonLoads (String.mk cand)
        | none => none

/-- LLM call result as returned by `generate_with_llm`: the `raw` text and the
optionally parsed `json` entry (`none` models both an absent key and JSON
null, which Python cannot distinguish from `None`). -/
structure LlmResp where
  json : Option JVal
  raw : String

/-- Model of `_unwrap_llm_resp` (interview_routes.py:256-306).  The result is
`Except`: `.error ()` marks the one reachable exception (calling
`_try_parse_json_string` on a truthy non-string `content` inside the
`choices` branch raises `AttributeError`); `.ok none` is the "no usable
value" outcome. -/
def unwrap_llm_resp (resp : LlmResp) : Except Unit (Option JVal) :=
  let raw := resp.raw
  let fromRaw : Option JVal := if raw ≠ "" then try_parse_json_string raw else none
  match resp.json with
  | some (.jobj kvs) =>
    if ["core_skills", "projects", "questions", "follow_up"].any (fun k => jHasKey kvs k) then
      .ok (some (.jobj kvs))
    else
      let msgRes : Option JVal :=
        match pyOr (jGet kvs ("message")) (pyOr (jGet kvs ("result")) (jGet kvs ("output"))) with
        | some (.jobj mkvs) =>
          match pyOr (jGet mkvs ("content"))
              (pyOr (jGet mkvs ("text")) (jGet mkvs ("response"))) with
          | some (.jstr s) => if pyStrip s ≠ "" then try_parse_json_string s else none
          | _ => none
        | _ => none
      match msgRes with
      | some inner => .ok (some inner)
      | none =>
        let respRes : Option JVal :=
          if jHasKey kvs ("response") then
            match jGet kvs ("response") with
            | some (.jstr s) => try_parse_json_string s
            | _ => none
          else none
        match respRes with
        | some inner => .ok (some inner)
        | none =>
          let choicesRes : Except Unit (Option JVal) :=
            match jGet kvs ("choices") with
            | some (.jarr (first :: _)) =>
              match first with
              | .jobj fkvs =>
                let msgBranch : Except Unit (Option JVal) :=
                  if jHasKey fkvs ("message") then
                    match jGet fkvs ("message") with
                    | some (.jobj mk2) =>
                      match pyOr (jGet mk2 ("content")) (jGet mk2 ("text")) with
                      | some (.jstr s) =>
                        if s ≠ "" then .ok (try_parse_json_string s) else .ok none
                      | some v => if jTruthy v then .error () else .ok none
                      | none => .ok none
                    | _ => .ok none
                  else .ok none
                match msgBranch with
                | .error _ => .error ()
                | .ok (some inner) => .ok (some inner)
                | .ok none =>
                  if jHasKey fkvs ("text") then
                    match jGet fkvs ("text") with
                    | some (.jstr s) => .ok (try_parse_json_string s)
                    | _ => .ok none
                  else .ok none
              | _ => .ok none
            | _ => .ok none
          match choicesRes with
          | .error _ => .error ()
          | .ok (some inner) => .ok (some inner)
          | .ok none => .ok (some (.jobj kvs))
  | some (.jarr xs) => .ok (some (.jarr xs))
  | some _ => .ok fromRaw
  | none => .ok fromRaw

/-! Question banks and the question assembly of `start_interview`
(interview_routes.py:86-220 and 360-429). -/

/-- Question bank `OOP_QS` from interview_routes.py. -/
def OOP_QS : List String :=
  ["What is encapsulation and why is it useful?",
   "Explain inheritance with an example and its pros/cons.",
   "What is polymorphism? Provide examples (compile-time and run-time).",
   "What are interfaces vs abstract classes and when to use each?",
   "Explain SOLID principles; give a short example for Single Responsibility.",
   "What is composition vs inheritance; when should you prefer composition?",
   "How does method overriding differ from method overloading?",
   "What are design patterns? Explain the Factory pattern.",
   "Explain the Observer pattern & a use case where it helps.",
   "How do you implement dependency injection and why?",
   "What is Liskov Substitution Principle with an example of violation?",
   "Discuss coupling and cohesion in OOP and why they matter.",
   "Explain encapsulation breaches (public fields) consequences.",
   "How do you design a plugin system with OOP principles?",
   "Explain the Adapter pattern and where it\x27s useful.",
   "What is the Template Method pattern?",
   "How would you mock dependencies for OOP unit tests?",
   "Explain the Builder pattern and when you would use it.",
   "What is a mixin and how is it used in some languages?",
   "Explain the Visitor pattern and a scenario for it.",
   "How to avoid diamond problem in multiple inheritance?",
   "What is an immutable object and why prefer immutability sometimes?",
   "Explain when to use composition to expose behavior at runtime.",
   "What are value objects vs entities in domain modeling?",
   "How to design a versioned API client using OOP?",
   "How to model relationships (1-to-many, many-to-many) in OOP?",
   "Explain how you would implement undo/redo using OOP.",
   "What are the tradeoffs of deep inheritance hierarchies?",
   "How to serialize/deserialize OOP graphs safely?",
   "Explain interface segregation principle with an example."]

/-- Question bank `DBMS_QS` from interview_routes.py. -/
def DBMS_QS : List String :=
  ["Explain normalization and normal forms up to 3NF.",
   "What are indexes? How do they improve query performance?",
   "When does an index hurt performance?",
   "Explain transactions and ACID properties.",
   "What are isolation levels and phantom reads?",
   "What is a B-tree index vs hash index?",
   "Explain denormalization and when to use it.",
   "How to design schema for many-to-many relationships?",
   "Explain query execution plan and how to read it.",
   "What is a covering index?",
   "How does database sharding work and when to shard?",
   "Explain replication types (master-slave, multi-master).",
   "What are materialized views and when to use them?",
   "Explain optimistic vs pessimistic locking.",
   "How to handle schema migrations in production?",
   "What is eventual consistency vs strong consistency?",
   "Explain foreign keys and cascade actions.",
   "How to mitigate deadlocks and reason about them?",
   "What is an OLTP vs OLAP workload?",
   "How to design for high write throughput in RDBMS?",
   "Explain how to tune database connection pooling.",
   "What is a composite index and how is it used?",
   "Explain partitioning strategies (range, list, hash).",
   "How to model time-series data in a relational DB?",
   "Explain the CAP theorem and its implications.",
   "What are stored procedures and pros/cons?",
   "Explain indexing on text columns and full-text search basics.",
   "How to estimate cardinality for query planning?",
   "Explain cross-database joins and their drawbacks.",
   "How to design a hotspot-free primary key strategy?"]

/-- Question bank `OS_QS` from interview_routes.py. -/
def OS_QS : List String :=
  ["Explain processes vs threads and context switching.",
   "What is a race condition and how do you prevent it?",
   "Explain deadlock conditions and one prevention method.",
   "What is virtual memory and how paging works?",
   "Explain how a CPU scheduler decides which process runs.",
   "What is a mutex vs a semaphore?",
   "Explain how file systems organize data on disk.",
   "What are system calls and how do they work?",
   "Explain copy-on-write and where it\x27s used.",
   "What is paging vs segmentation?",
   "How does a kernel handle interrupts?",
   "Explain I/O scheduling and why it\x27s necessary.",
   "What is process synchronization and condition variables?",
   "Describe memory fragmentation and mitigation techniques.",
   "Explain swap space and when it is used.",
   "What is kernel preemption and why it matters?",
   "Explain how user-space and kernel-space communicate (e.g., ioctl).",
   "What is priority inversion and how to solve it?",
   "Explain how context switch cost impacts multi-threading design.",
   "What is a race-avoidant lock-free data structure?",
   "Describe copy-on-write fork() implementation details.",
   "Explain the bootstrap process (bootloader -> kernel).",
   "Describe how to profile CPU-bound code on a server.",
   "What is an interrupt vector table?",
   "Explain pipelining hazards in CPU microarchitecture (brief).",
   "How do page replacement algorithms like LRU work?",
   "Explain memory mapped files and benefits.",
   "What is address space layout randomization (ASLR)?",
   "Describe how systemd (or init) manages services at boot."]

/-- Question bank `CN_QS` from interview_routes.py. -/
def CN_QS : List String :=
  ["Explain the TCP three-way handshake and teardown.",
   "What is UDP and when would you use it?",
   "Explain congestion control in TCP (brief: AIMD).",
   "What is DNS and how does name resolution work?",
   "Explain HTTP request/response lifecycle and status codes.",
   "What is TLS and how does it secure connections?",
   "Explain subnetting and how to calculate subnets.",
   "What are sockets and how are they used in apps?",
   "Explain NAT and its types (SNAT, DNAT).",
   "What is ARP and how does it map IP to MAC?",
   "Explain the OSI model layers with examples.",
   "What is a CDN and how does it reduce latency?",
   "Explain load balancing strategies (round robin, least conn).",
   "What is HTTP/2 multiplexing and why it helps?",
   "Explain how TCP flow control works (windowing).",
   "What is BGP and why is it critical for the Internet?",
   "Explain TLS certificate chain and trust anchors.",
   "What is packet loss and how to detect it?",
   "Explain QoS basics and traffic prioritization.",
   "What is a VPN and how does it secure tunnels?",
   "Explain IPv6 addressing key differences vs IPv4.",
   "What is multicast vs broadcast vs unicast?",
   "Explain how to measure network latency and jitter.",
   "What is a handshake latency vs transfer latency?",
   "Explain layer 2 vs layer 3 switching differences.",
   "What is HTTP caching and cache-control headers?",
   "Explain how TLS session resumption works.",
   "What is a socket backlog and why tune it?",
   "Explain how TCP selective acknowledgements (SACK) work.",
   "What are SYN flood attacks and mitigation strategies?"]

/-- Model of `COMBINED_CS_BANK` (interview_routes.py:220).  Note it holds 119
entries (`OS_QS` has 29), all distinct. -/
def COMBINED_CS_BANK : List String :=
  OOP_QS ++ DBMS_QS ++ OS_QS ++ CN_QS

/-- Resume-targeted portion of the initial question list
(interview_routes.py:360-396).  `llmQs` is the `questions` list extracted
from the LLM generation attempt at lines 361-383 (`[]` when the attempt
yielded nothing usable); question items are modelled as strings, so the
final string normalization at lines 415-420 is the identity. -/
def resume_questions_base (llmQs : List String) (parsed : Parsed) : List String :=
  if llmQs.isEmpty then generate_questions_from_parsed parsed 8 else llmQs

/-- Deduplicated union of the base questions with the heuristic supplement
(interview_routes.py:392-394). -/
def resume_supplement (llmQs : List String) (parsed : Parsed) : List String :=
  pyDedup (resume_questions_base llmQs parsed ++ generate_questions_from_parsed parsed 30)

def resume_questions (llmQs : List String) (parsed : Parsed) : List String :=
  let questions := resume_questions_base llmQs parsed
  if questions.length < 15 then (resume_supplement llmQs parsed).take 15
  else questions

/-- Fundamentals bank after removing questions already present
(interview_routes.py:399-401). -/
def cs_bank_after (resumeQs : List String) : List String :=
  COMBINED_CS_BANK.filter (fun q => !(resumeQs.contains q))

/-- Characterization of `random.sample(bank, 10)`: 10 distinct positions of
the (duplicate-free) bank, in some order. -/
def IsSample10 (bank chosen : List String) : Prop :=
  chosen.length = 10 ∧ chosen.Nodup ∧ ∀ q ∈ chosen, q ∈ bank

instance (bank chosen : List String) : Decidable (IsSample10 bank chosen) := by
  unfold IsSample10
  infer_instance

/-- Fundamentals portion (interview_routes.py:402-410): a 10-element random
sample when at least 10 candidates remain (`chosen` stands for the sample,
constrained by `IsSample10` in the theorems), else all remaining. -/
def cs_to_add (resumeQs chosen : List String) : List String :=
  if 10 ≤ (cs_bank_after resumeQs).length then chosen
  else (cs_bank_after resumeQs).take 10

/-- Complete initial question list built by `start_interview`
(interview_routes.py:412-420). -/
def final_questions (llmQs : List String) (parsed : Parsed) (chosen : List String) :
    List String :=
  resume_questions llmQs parsed ++ cs_to_add (resume_questions llmQs parsed) chosen

/-! Model of the score dictionaries flowing through `submit_answer`. -/

/-- Raw score dictionary as produced upstream (LLM evaluation or heuristic
fallback) before normalization: each modelled key is optional; `score` is the
legacy key read as a fallback for `overall_score`. -/
structure ScoreIn where
  overall_score : Option PyVal
  score : Option PyVal
  technical : Option PyVal
  communication : Option PyVal
  depth : Option PyVal
  resume_match : Option PyVal
  resume_bonus : Option PyVal
  strengths : Option (List String)
  weaknesses : Option (List String)
  tips : Option (List String)
  speech_meta : Option SpeechMeta
  meta : Option MetaStats
deriving DecidableEq, Repr

/-- Score dictionary after the normalization block
(interview_routes.py:503-511): the five named numeric keys are integers, the
other keys are carried unchanged. -/
structure ScoreNorm where
  overall_score : ℤ
  technical : ℤ
  communication : ℤ
  depth : ℤ
  resume_match : ℤ
  score : Option PyVal
  resume_bonus : Option PyVal
  strengths : List String
  weaknesses : List String
  tips : List String
  speech_meta : Option SpeechMeta
  meta : Option MetaStats
deriving DecidableEq, Repr

/-- Model of the normalization block of `submit_answer`
(interview_routes.py:503-511).  Note that only `overall_score`, `technical`,
`communication`, `depth` and `resume_match` pass through
`_normalize_int_safe`; `resume_bonus` and `score` are stored as received. -/
def normalize_score (s : ScoreIn) : ScoreNorm :=
  { overall_score := normalize_int_safe (s.overall_score.getD (s.score.getD (.vint 0)))
    technical := normalize_int_safe (s.technical.getD (.vint 0))
    communication := normalize_int_safe (s.communication.getD (.vint 0))
    depth := normalize_int_safe (s.depth.getD (.vint 0))
    resume_match := normalize_int_safe (s.resume_match.getD (.vint 0))
    score := s.score
    resume_bonus := s.resume_bonus
    strengths := s.strengths.getD []
    weaknesses := s.weaknesses.getD []
    tips := s.tips.getD []
    speech_meta := s.speech_meta
    meta := s.meta }

/-- View of a heuristic `ScoreResult` as the score dictionary of
`submit_answer`; all relevant keys are present, so the `setdefault` fixups at
interview_routes.py:489-494 are no-ops. -/
def toScoreIn (r : ScoreResult) : ScoreIn :=
  { overall_score := some (.vint r.overall_score)
    score := none
    technical := some (.vint r.technical)
    communication := some (.vint r.communication)
    depth := some (.vint r.depth)
    resume_match := some (.vint r.resume_match)
    resume_bonus := some (.vint r.resume_bonus)
    strengths := some r.strengths
    weaknesses := some r.weaknesses
    tips := some r.tips
    speech_meta := some r.speech_meta
    meta := some r.meta }

/-! Python repr/str of JSON values, for `str(fu)` on an LLM follow-up. -/

mutual

/-- Python `repr` of a parsed JSON value (string quoting and number
rendering approximate CPython; no claim depends on their exact text). -/
def jRepr : JVal → String
  | .jnull => "None"
  | .jbool true => "True"
  | .jbool false => "False"
  | .jnum q => if q.den = 1 then toString q.num else toString q.num ++ "/" ++ toString q.den
  | .jstr s => "\x27" ++ s ++ "\x27"
  | .jarr xs => "[" ++ jReprList xs ++ "]"
  | .jobj kvs => "\x7b" ++ jReprPairs kvs ++ "\x7d"

/-- Comma-joined reprs of array elements. -/
def jReprList : List JVal → String
  | [] => ""
  | [x] => jRepr x
  | x :: y :: xs => jRepr x ++ ", " ++ jReprList (y :: xs)

/-- Comma-joined reprs of object members. -/
def jReprPairs : List (String × JVal) → String
  | [] => ""
  | [(k, v)] => "\x27" ++ k ++ "\x27: " ++ jRepr v
  | (k, v) :: y :: xs => "\x27" ++ k ++ "\x27: " ++ jRepr v ++ ", " ++ jReprPairs (y :: xs)

end

/-- Python `str` of a parsed JSON value. -/
def pyStrOfJ (v : JVal) : String :=
  match v with
  | .jstr s => s
  | _ => jRepr v

/-! Follow-up generation and insertion (interview_routes.py:526-565). -/

/-- Nouns of the fallback follow-up regex, in alternation order. -/
def noun_words : List String :=
  ["project", "module", "service", "database", "api", "algorithm", "function",
   "component", "model", "schema", "index"]

/-- Check the alternatives at one position; returns the matched original-case
text (the regex is case-insensitive but `group(1)` is the original slice). -/
def findNounAt (cs : List Char) : Option String :=
  noun_words.findSome? (fun n =>
    let m := cs.take n.length
    if String.mk (m.map Char.toLower) = n then some (String.mk m) else none)

/-- Leftmost case-insensitive match of the noun alternation
(`re.search(r"(project|module|...)", qtext, re.I)`). -/
def findNoun : List Char → Option String
  | [] => none
  | c :: rest =>
    match findNounAt (c :: rest) with
    | some s => some s
    | none => findNoun rest

/-- Deterministic fallback follow-ups (interview_routes.py:545-551). -/
def fallback_follow_ups (qtext : String) : List String :=
  let key_noun := (findNoun qtext.toList).getD ("component")
  ["For the previous answer, explain the key design decision for the " ++ key_noun ++
     " in more detail.",
   "What testing strategy and edge-case handling would you implement for this part of the system?"]

/-- Follow-ups taken from the unwrapped LLM response
(interview_routes.py:527-541); `none` models both an unusable response and a
caught exception. -/
def llm_follow_ups (fuU : Option JVal) : List String :=
  match fuU with
  | some (.jobj kvs) =>
    if jHasKey kvs ("follow_up") then
      match jGet kvs ("follow_up") with
      | some fu => if jTruthy fu then [pyStrOfJ fu] else []
      | none => []
    else []
  | some (.jstr s) => [s]
  | _ => []

/-- Follow-up list actually spliced in: LLM result if nonempty, else the two
deterministic fallbacks (interview_routes.py:545-551). -/
def follow_ups_for (fuU : Option JVal) (qtext : String) : List String :=
  let l := llm_follow_ups fuU
  if l.isEmpty then fallback_follow_ups qtext else l

/-- Insertion loop of `submit_answer` (interview_routes.py:554-561): for the
i-th follow-up, insert at `insert_at + i` when that does not exceed the
current length, else append. -/
def insert_follow_ups : List String → Nat → List String → List String
  | qs, _, [] => qs
  | qs, pos, fu :: rest =>
    let qs2 := if pos ≤ qs.length then qs.insertIdx pos fu else qs ++ [fu]
    insert_follow_ups qs2 (pos + 1) rest

/-! Interview session state and the route bodies. -/

/-- One stored answer record (interview_routes.py:514-521). -/
structure AnswerRecord where
  question_index : ℤ
  question : String
  answer : String
  score : ScoreNorm
  transcript_meta : Option TranscriptMeta
deriving DecidableEq, Repr

/-- Value stored under one key of the analysis dictionary. -/
inductive AVal where
  | aint (n : ℤ)
  | astrs (l : List String)
  | acat (technical_avg communication_avg depth_avg resume_match_avg : ℤ)
  | arecords (l : List AnswerRecord)
  | ajson (v : JVal)
deriving Repr

/-- Interview session state: the three JSON-serialized fields of the
`Interview` row (models.py:24-55); serialization round-trips, so the lists
are modelled directly. -/
structure InterviewState where
  questions : List String
  answers : List AnswerRecord
  analysis : List (String × AVal)

/-- HTTP error raised by a route (`HTTPException`, or 500 for an uncaught
exception). -/
structure HErr where
  status : Nat
  detail : String
deriving DecidableEq, Repr

/-- Payload of `submit_answer` (schemas.AnswerPayload). -/
structure AnswerPayload where
  question_index : ℤ
  answer : Option String
  transcript_meta : Option TranscriptMeta

/-- Response body of `submit_answer` (interview_routes.py:567-572). -/
structure SubmitResp where
  score : ℤ
  technical : ℤ
  communication : ℤ
  details : ScoreNorm
deriving DecidableEq, Repr

/-- State created by `start_interview` (interview_routes.py:422-425):
questions assembled as above, empty answers, and an analysis holding the
resume summary and keywords.  `summary_data` is whatever the summarize step
produced; `chosen` is the fundamentals sample. -/
def start_interview_state (llmQs : List String) (parsed : Parsed)
    (chosen : List String) (summary_data : JVal) : InterviewState :=
  { questions := final_questions llmQs parsed chosen
    answers := []
    analysis := [("resume_summary", .ajson summary_data),
                 ("resume_keywords", .astrs (parsed.keywords.take 80))] }

/-- Model of `submit_answer` (interview_routes.py:446-572) from the point the
session is loaded.  `llmEval` is the outcome of the optional LLM evaluation
(`some` iff `LLM_FORCE_EVAL` was set and unwrapping yielded a truthy dict,
whose modelled keys are given); `fuU` is the unwrapped LLM follow-up
response. -/
def submit_qtext (iv : InterviewState) (payload : AnswerPayload) : String :=
  iv.questions.getD payload.question_index.toNat ("")

/-- Answer text used by `submit_answer` (interview_routes.py:460-463):
transcript text is preferred when present and truthy. -/
def submit_answer_text (payload : AnswerPayload) : String :=
  let answer_text0 := (payload.answer.getD (""))
  match payload.transcript_meta with
  | some tm =>
    match tm.text with
    | some t => if t ≠ "" then t else answer_text0
    | none => answer_text0
  | none => answer_text0

/-- Upstream score dictionary of `submit_answer` (interview_routes.py:469-501):
the LLM evaluation when it yielded a truthy dict, else the heuristic
fallback on keywords drawn from the question text. -/
def submit_score_in (iv : InterviewState) (payload : AnswerPayload)
    (llmEval : Option ScoreIn) : ScoreIn :=
  match llmEval with
  | some s => s
  | none =>
    let qtext := submit_qtext iv payload
    let expected := if qtext ≠ "" then (findWordRuns qtext.toList).take 12 else []
    toScoreIn (score_answer_text (submit_answer_text payload) expected payload.transcript_meta)

/-- Answer record appended by `submit_answer` (interview_routes.py:513-521). -/
def submit_record (iv : InterviewState) (payload : AnswerPayload)
    (llmEval : Option ScoreIn) : AnswerRecord :=
  { question_index := payload.question_index
    question := submit_qtext iv payload
    answer := submit_answer_text payload
    score := normalize_score (submit_score_in iv payload llmEval)
    transcript_meta := payload.transcript_meta }

def submit_answer (iv : InterviewState) (payload : AnswerPayload)
    (llmEval : Option ScoreIn) (fuU : Option JVal) :
    Except HErr (InterviewState × SubmitResp) :=
  if payload.question_index < 0 ∨ (iv.questions.length : ℤ) ≤ payload.question_index then
    .error ⟨400, "Invalid question index"⟩
  else
    let questions := iv.questions
    let idx := payload.question_index.toNat
    let qtext := submit_qtext iv payload
    let score_n := (submit_record iv payload llmEval).score
    let answers2 := iv.answers ++ [submit_record iv payload llmEval]
    let fus := follow_ups_for fuU qtext
    let qs2 := insert_follow_ups questions (idx + 1) (fus.take 2)
    .ok ({ iv with questions := qs2, answers := answers2 },
      { score := score_n.overall_score
        technical := score_n.technical
        communication := score_n.communication
        details := score_n })

/-- Per-record overall value for aggregation (interview_routes.py:596-601):
`s.get("overall_score") or s.get("score") or 0`, then `int(...)`; `none`
means `int()` raises. -/
def record_overall (a : AnswerRecord) : Option ℤ :=
  let s := a.score
  if s.overall_score ≠ 0 then some s.overall_score
  else
    match s.score with
    | some v => if pyTruthy v then pyToInt v else some 0
    | none => some 0

/-- Overall values of all records; `none` when any record raises. -/
def finish_overalls (answers : List AnswerRecord) : Option (List ℤ) :=
  answers.mapM record_overall

/-- Frequency tally in first-occurrence order (Python dict counting). -/
def tallyAdd (acc : List (String × Nat)) (k : String) : List (String × Nat) :=
  if acc.any (fun p => p.1 = k) then
    acc.map (fun p => if p.1 = k then (p.1, p.2 + 1) else p)
  else acc ++ [(k, 1)]

/-- Tally a list of strings. -/
def tally (l : List String) : List (String × Nat) :=
  l.foldl tallyAdd []

/-- Stable descending sort by count, Python
`sorted(d.items(), key=lambda x: -x[1])`. -/
def sortByCountDesc (l : List (String × Nat)) : List (String × Nat) :=
  l.mergeSort (fun x y => Nat.ble y.2 x.2)

/-- Keys of the final analysis dictionary, in insertion order
(interview_routes.py:658-673). -/
def analysisKeys : List String :=
  ["overall_score", "by_category", "top_strengths", "top_weaknesses",
   "aggregated_tips", "improvement_tips", "actionable_from_weaknesses",
   "suggested_4_week_plan", "detailed_per_answer"]

/-- Fixed 4-week study plan (interview_routes.py:646-651). -/
def study_plan : List String :=
  ["Week 1 — Data Structures & Algorithms (Arrays, Hashmaps, Trees, Graphs). Solve 10 problems and articulate approach & complexity.",
   "Week 2 — System Design Basics (APIs, Databases, Caching, Indexing). Draw architecture diagrams and state tradeoffs.",
   "Week 3 — OOP & Code Quality (SOLID, patterns, refactoring). Build small modules and write unit tests.",
   "Week 4 — OS & Networks fundamentals (threads, memory, sockets), plus mock interviews and timed practice."]

/-- Model of `finish_interview` (interview_routes.py:575-678) from the point
the session is loaded: empty answer list is rejected with 400 before any
aggregation; an `int()` failure on a legacy `score` value is an uncaught
exception (500).  On success the new state and the analysis are returned. -/
def finish_interview (iv : InterviewState) :
    Except HErr (InterviewState × List (String × AVal)) :=
  let answers := iv.answers
  if answers.isEmpty then .error ⟨400, "No answers submitted"⟩
  else
    match finish_overalls answers with
    | none => .error ⟨500, "Internal Server Error"⟩
    | some total_scores =>
      let technicals := answers.map (fun a => a.score.technical)
      let comms := answers.map (fun a => a.score.communication)
      let depths := answers.map (fun a => a.score.depth)
      let resume_matches := answers.map (fun a => a.score.resume_match)
      let strengths_acc := tally (answers.flatMap (fun a => a.score.strengths))
      let weaknesses_acc := tally (answers.flatMap (fun a => a.score.weaknesses))
      let tips_acc := tally (answers.flatMap (fun a => a.score.tips))
      let avg_score := ratTrunc ((total_scores.sum : ℚ) / (total_scores.length : ℚ))
      let technical_avg := ratTrunc ((technicals.sum : ℚ) / ((max 1 technicals.length : ℕ) : ℚ))
      let communication_avg := ratTrunc ((comms.sum : ℚ) / ((max 1 comms.length : ℕ) : ℚ))
      let depth_avg := ratTrunc ((depths.sum : ℚ) / ((max 1 depths.length : ℕ) : ℚ))
      let resume_match_avg :=
        ratTrunc ((resume_matches.sum : ℚ) / ((max 1 resume_matches.length : ℕ) : ℚ))
      let top_strengths := (sortByCountDesc strengths_acc).take 5
      let top_weaknesses := (sortByCountDesc weaknesses_acc).take 8
      let top_tips := (sortByCountDesc tips_acc).take 8
      let improvement_tips :=
        [if technical_avg < 60 then
           "Strengthen core technical knowledge: data structures, algorithms, and system design. Practice explaining algorithmic complexity (Big-O) for each approach."
         else
           "Technical fundamentals look solid — focus on deeper tradeoff discussions and complexity analysis.",
         if communication_avg < 60 then
           "Work on structured answers: use STAR / Problem→Approach→Result format and practice concise speech (aim 120-160 wpm)."
         else
           "Communication is good — aim to be more concise and avoid filler words when under time pressure.",
         if depth_avg < 50 then
           "Provide deeper design and edge-case reasoning. For each solution, mention performance, scalability, and failure modes."
         else
           "Depth is acceptable — add concrete micro-optimizations / benchmarks when possible.",
         if resume_match_avg < 50 then
           "Tie answers explicitly to projects on your resume — mention modules, technologies, and measurable outcomes (e.g., \x27reduced latency by 30%\x27)."
         else
           "Good resume alignment. Continue referencing concrete project artifacts during answers."]
      let actionable := (top_weaknesses.take 5).map (fun p =>
        p.1 ++ " — practice focused Q&A and give an example next time.")
      let analysis : List (String × AVal) :=
        [("overall_score", .aint avg_score),
         ("by_category", .acat technical_avg communication_avg depth_avg resume_match_avg),
         ("top_strengths", .astrs (top_strengths.map Prod.fst)),
         ("top_weaknesses", .astrs (top_weaknesses.map Prod.fst)),
         ("aggregated_tips", .astrs (top_tips.map Prod.fst)),
         ("improvement_tips", .astrs improvement_tips),
         ("actionable_from_weaknesses", .astrs actionable),
         ("suggested_4_week_plan", .astrs study_plan),
         ("detailed_per_answer", .arecords answers)]
      .ok ({ iv with analysis := analysis }, analysis)

/-- Session state after a `finish` call: unchanged when the call failed
(the route raises before any write in that case). -/
def finish_state (iv : InterviewState) : InterviewState :=
  match finish_interview iv with
  | .ok (iv2, _) => iv2
  | .error _ => iv

/-! Helper lemmas shared by several claims. -/

theorem insertIdx_eq_take_cons_drop {α : Type _} (l : List α) (n : Nat) (a : α)
    (h : n ≤ l.length) : l.insertIdx n a = l.take n ++ a :: l.drop n := by
  induction l generalizing n with
  | nil =>
    have : n = 0 := by simpa using h
    subst this
    simp
  | cons x xs ih =>
    cases n with
    | zero => simp
    | succ m =>
      simp only [List.insertIdx_succ_cons, List.take_succ_cons, List.drop_succ_cons,
        List.cons_append]
      rw [ih m (by simpa using h)]

theorem insert_follow_ups_spec (fus : List String) (qs : List String) (pos : Nat)
    (h : pos ≤ qs.length) :
    insert_follow_ups qs pos fus = qs.take pos ++ fus ++ qs.drop pos := by
  induction fus generalizing qs pos with
  | nil => simp [insert_follow_ups]
  | cons f rest ih =>
    unfold insert_follow_ups
    rw [if_pos h, insertIdx_eq_take_cons_drop qs pos f h]
    have hA : (qs.take pos).length = pos := by
      simp [List.length_take]
      omega
    have hlen : pos + 1 ≤ (qs.take pos ++ f :: qs.drop pos).length := by
      simp
      omega
    rw [ih _ _ hlen]
    rw [List.take_append_eq_append_take, List.drop_append_eq_append_drop, hA]
    have h1 : (qs.take pos).take (pos + 1) = qs.take pos :=
      List.take_of_length_le (by omega)
    have h2 : (qs.take pos).drop (pos + 1) = [] :=
      List.drop_eq_nil_of_le (by omega)
    simp [h1, h2]

theorem llm_follow_ups_len_le (fuU : Option JVal) : (llm_follow_ups fuU).length ≤ 1 := by
  unfold llm_follow_ups
  rcases fuU with _ | v
  · simp
  · cases v with
    | jobj kvs =>
      dsimp only
      by_cases hk : jHasKey kvs ("follow_up") = true
      · rw [if_pos hk]
        cases hg : jGet kvs ("follow_up") with
        | none => simp
        | some fv => by_cases ht : jTruthy fv = true <;> simp [ht]
      · rw [if_neg hk]
        simp
    | jstr s => simp
    | jnull => simp
    | jbool b => simp
    | jnum q => simp
    | jarr xs => simp

theorem fallback_follow_ups_len (q : String) : (fallback_follow_ups q).length = 2 := by
  simp [fallback_follow_ups]

theorem follow_ups_for_len (fuU : Option JVal) (q : String) :
    1 ≤ (follow_ups_for fuU q).length ∧ (follow_ups_for fuU q).length ≤ 2 := by
  by_cases he : (llm_follow_ups fuU).isEmpty = true
  · simp [follow_ups_for, he, fallback_follow_ups]
  · have h1 := llm_follow_ups_len_le fuU
    have h2 : (llm_follow_ups fuU).length ≠ 0 := by
      simpa [List.isEmpty_iff, List.length_eq_zero] using he
    have heq : follow_ups_for fuU q = llm_follow_ups fuU := by
      simp [follow_ups_for, he]
    rw [heq]
    omega

theorem follow_ups_for_fallback (fuU : Option JVal) (q : String)
    (h : llm_follow_ups fuU = []) : follow_ups_for fuU q = fallback_follow_ups q := by
  unfold follow_ups_for
  simp [h]

/-- Success case of `submit_answer`: the index was valid, the follow-ups were
spliced at `question_index + 1`, and the record was appended. -/
theorem submit_answer_ok_spec (iv : InterviewState) (p : AnswerPayload)
    (llmEval : Option ScoreIn) (fuU : Option JVal) (st2 : InterviewState)
    (resp : SubmitResp) (h : submit_answer iv p llmEval fuU = .ok (st2, resp)) :
    0 ≤ p.question_index ∧ p.question_index < (iv.questions.length : ℤ) ∧
    st2.questions = insert_follow_ups iv.questions (p.question_index.toNat + 1)
      ((follow_ups_for fuU (submit_qtext iv p)).take 2) ∧
    st2.answers = iv.answers ++ [submit_record iv p llmEval] := by
  unfold submit_answer at h
  split at h
  · exact absurd h (by simp)
  · rename_i hcond
    push_neg at hcond
    simp only [Except.ok.injEq, Prod.mk.injEq] at h
    obtain ⟨hst, _⟩ := h
    refine ⟨hcond.1, hcond.2, ?_, ?_⟩
    · rw [← hst]
    · rw [← hst]

theorem normalize_int_safe_mem (v : PyVal) :
    0 ≤ normalize_int_safe v ∧ normalize_int_safe v ≤ 100 := by
  unfold normalize_int_safe
  rcases h : pyToInt v with _ | n <;> simp [h]

theorem ratTrunc_eq_floor (q : ℚ) (h : 0 ≤ q) : ratTrunc q = ⌊q⌋ := by
  unfold ratTrunc
  rw [Rat.floor_def]
  exact Int.tdiv_eq_ediv (Rat.num_nonneg.mpr h) (by positivity)

theorem ratTrunc_mem (q : ℚ) (c : ℤ) (h0 : 0 ≤ q) (h1 : q ≤ (c : ℚ)) :
    0 ≤ ratTrunc q ∧ ratTrunc q ≤ c := by
  rw [ratTrunc_eq_floor q h0]
  refine ⟨Int.floor_nonneg.mpr h0, ?_⟩
  have := Int.floor_le_floor h1
  simpa using this

theorem seqRatio_nonneg (a b : List Char) : 0 ≤ seqRatio a b := by
  unfold seqRatio
  dsimp only
  split
  · norm_num
  · positivity

theorem similarityScore_nonneg (a b : String) : 0 ≤ similarityScore a b :=
  seqRatio_nonneg _ _

theorem bonus_bound_aux (res : ℚ) (h : 0 ≤ res) :
    0 ≤ min 10 (ratTrunc ((ratTrunc (min 100 (res * 100)) : ℚ) / 10)) ∧
    min 10 (ratTrunc ((ratTrunc (min 100 (res * 100)) : ℚ) / 10)) ≤ 10 := by
  obtain ⟨hm0, hm1⟩ := ratTrunc_mem (min 100 (res * 100)) 100
    (le_min (by norm_num) (by positivity)) (min_le_left _ _)
  obtain ⟨hb0, _⟩ := ratTrunc_mem ((ratTrunc (min 100 (res * 100)) : ℚ) / 10) 10
    (by positivity) (by
      rw [div_le_iff₀ (by norm_num)]
      norm_num
      exact_mod_cast hm1)
  exact ⟨le_min (by norm_num) hb0, min_le_left _ _⟩

/-- Bounds of the resume bonus computed by the heuristic scorer. -/
theorem score_resume_bonus_bounds (a : String) (ks : List String)
    (tm : Option TranscriptMeta) :
    0 ≤ (score_answer_text a ks tm).resume_bonus ∧
    (score_answer_text a ks tm).resume_bonus ≤ 10 := by
  unfold score_answer_text
  dsimp only
  apply bonus_bound_aux
  split
  · rename_i hc
    exact absurd rfl hc
  · split
    · exact similarityScore_nonneg _ _
    · exact le_refl 0

theorem pyDedupF_subset :
    ∀ (fuel : Nat) (l : List String), ∀ y ∈ pyDedupF fuel l, y ∈ l := by
  intro fuel
  induction fuel with
  | zero => intro l y hy; simp [pyDedupF] at hy
  | succ n ih =>
    intro l y hy
    cases l with
    | nil => simp [pyDedupF] at hy
    | cons x xs =>
      simp only [pyDedupF, List.mem_cons] at hy
      rcases hy with rfl | hy
      · exact List.mem_cons_self _ _
      · exact List.mem_cons_of_mem _ (List.mem_of_mem_filter (ih _ _ hy))

theorem pyDedupF_nodup : ∀ (fuel : Nat) (l : List String), (pyDedupF fuel l).Nodup := by
  intro fuel
  induction fuel with
  | zero => intro l; simp [pyDedupF]
  | succ n ih =>
    intro l
    cases l with
    | nil => simp [pyDedupF]
    | cons x xs =>
      simp only [pyDedupF, List.nodup_cons]
      refine ⟨?_, ih _⟩
      intro hx
      have := pyDedupF_subset n _ _ hx
      simp at this

theorem pyDedup_nodup (l : List String) : (pyDedup l).Nodup :=
  pyDedupF_nodup _ _

theorem resume_base_len_lt (llmQs : List String) (parsed : Parsed)
    (h : llmQs.length < 15) : (resume_questions_base llmQs parsed).length < 15 := by
  unfold resume_questions_base
  split
  · calc (generate_questions_from_parsed parsed 8).length ≤ 8 := by
          simp [generate_questions_from_parsed]
      _ < 15 := by norm_num
  · exact h

theorem resume_questions_nodup_of_lt (llmQs : List String) (parsed : Parsed)
    (h : llmQs.length < 15) : (resume_questions llmQs parsed).Nodup := by
  unfold resume_questions
  rw [if_pos (resume_base_len_lt llmQs parsed h)]
  exact (pyDedup_nodup _).sublist (List.take_sublist _ _)

set_option maxRecDepth 8192 in
theorem COMBINED_CS_BANK_nodup : COMBINED_CS_BANK.Nodup := by decide

theorem cs_bank_after_nodup (resumeQs : List String) : (cs_bank_after resumeQs).Nodup :=
  COMBINED_CS_BANK_nodup.filter _

theorem cs_to_add_spec (resumeQs chosen : List String)
    (hs : 10 ≤ (cs_bank_after resumeQs).length → IsSample10 (cs_bank_after resumeQs) chosen) :
    (cs_to_add resumeQs chosen).Nodup ∧
    (∀ q ∈ cs_to_add resumeQs chosen, q ∉ resumeQs) ∧
    (cs_to_add resumeQs chosen).length = min 10 (cs_bank_after resumeQs).length := by
  have hmem : ∀ q ∈ cs_bank_after resumeQs, q ∉ resumeQs := by
    intro q hq
    unfold cs_bank_after at hq
    have := List.of_mem_filter hq
    simpa using this
  unfold cs_to_add
  split
  · rename_i hge
    obtain ⟨hlen, hnd, hsub⟩ := hs hge
    exact ⟨hnd, fun q hq => hmem q (hsub q hq), by omega⟩
  · rename_i hlt
    push_neg at hlt
    refine ⟨(cs_bank_after_nodup resumeQs).sublist (List.take_sublist _ _), ?_, ?_⟩
    · intro q hq
      exact hmem q (List.mem_of_mem_take hq)
    · simp [List.length_take]

/-! Claim theorems. -/

/-- C5: the heuristic answer scorer is a pure deterministic function: two
calls with identical `(answer, expected_keywords, transcript_meta)` inputs
(the resume-keyword argument is left at its default, as in `submit_answer`)
return ScoreResults that are identical in every field. -/
theorem C5_scorer_deterministic (a₁ a₂ : String) (k₁ k₂ : List String)
    (t₁ t₂ : Option TranscriptMeta)
    (h1 : a₁ = a₂) (h2 : k₁ = k₂) (h3 : t₁ = t₂) :
    score_answer_text a₁ k₁ t₁ = score_answer_text a₂ k₂ t₂ := by
  rw [h1, h2, h3]

/-- Witness for C5 at a concrete input. -/
theorem C5_scorer_deterministic_witness :
    score_answer_text ("A thread runs.") ["thread"] (some ⟨none, some 5⟩) =
      score_answer_text ("A thread runs.") ["thread"] (some ⟨none, some 5⟩) :=
  C5_scorer_deterministic ("A thread runs.") ("A thread runs.") ["thread"] ["thread"]
    (some ⟨none, some 5⟩) (some ⟨none, some 5⟩) rfl rfl rfl

/-- C6: finishing a session whose answer list is empty returns the
user-visible "No answers submitted" error (HTTP 400) and the stored analysis
is left unchanged. -/
theorem C6_finish_empty_rejected (iv : InterviewState) (h : iv.answers = []) :
    finish_interview iv = .error ⟨400, "No answers submitted"⟩ ∧
    (finish_state iv).analysis = iv.analysis := by
  have h1 : finish_interview iv = .error ⟨400, "No answers submitted"⟩ := by
    unfold finish_interview
    simp [h]
  refine ⟨h1, ?_⟩
  unfold finish_state
  rw [h1]

/-- Witness for C6 at a concrete session. -/
theorem C6_finish_empty_rejected_witness :
    finish_interview ⟨["q"], [], [("resume_keywords", .astrs ["x"])]⟩ =
      .error ⟨400, "No answers submitted"⟩ ∧
    (finish_state ⟨["q"], [], [("resume_keywords", .astrs ["x"])]⟩).analysis =
      (⟨["q"], [], [("resume_keywords", .astrs ["x"])]⟩ : InterviewState).analysis :=
  C6_finish_empty_rejected ⟨["q"], [], [("resume_keywords", .astrs ["x"])]⟩ rfl

/-- C7: when the LLM call result has no parsed value and its raw text yields
nothing parseable, the response normalizer returns "no usable value"
(`.ok none`), not an exception. -/
theorem C7_normalizer_no_usable_value (resp : LlmResp) (h1 : resp.json = none)
    (h2 : try_parse_json_string resp.raw = none) :
    unwrap_llm_resp resp = .ok none := by
  obtain ⟨j, raw⟩ := resp
  simp only at h1 h2
  subst h1
  unfold unwrap_llm_resp
  simp only
  split <;> simp [h2]

/-- Witness for C7 at the example input "I cannot answer that". -/
theorem C7_normalizer_no_usable_value_witness :
    unwrap_llm_resp ⟨none, "I cannot answer that"⟩ = .ok none :=
  C7_normalizer_no_usable_value ⟨none, "I cannot answer that"⟩ rfl
    (by with_unfolding_all rfl)

/-- C1 as frozen is false: `submit_answer` never normalizes the
`resume_bonus` key, so an LLM-sourced `resume_bonus` of 999 reaches the
stored answer record unmodified, outside [0, 10]. -/
theorem C1_resume_bonus_stored_unclamped :
    ∃ st2 resp,
      submit_answer ⟨["q0"], [], []⟩ ⟨0, some ("a"), none⟩
        (some ⟨some (.vint 50), none, some (.vint 50), some (.vint 50), some (.vint 50),
          some (.vint 50), some (.vint 999), none, none, none, none, none⟩)
        (some (.jstr "fu")) = .ok (st2, resp) ∧
      st2.answers.map (fun r => r.score.resume_bonus) = [some (.vint 999)] ∧
      ¬ ((999 : ℤ) ≤ 10) := by
  refine ⟨_, _, rfl, by with_unfolding_all rfl, by norm_num⟩

/-- C1 amended: every answer record stored by `submit_answer` has its
`overall_score`, `technical`, `communication`, `depth` and `resume_match`
coerced to integers in [0, 100] whatever the upstream produced, but
`resume_bonus` is stored exactly as produced upstream without clamping; it
lies in [0, 10] when the heuristic fallback produced the score, while an
LLM-sourced value is stored untouched. -/
theorem C1_numeric_fields_clamped (iv : InterviewState) (p : AnswerPayload)
    (llmEval : Option ScoreIn) (fuU : Option JVal) (st2 : InterviewState)
    (resp : SubmitResp) (h : submit_answer iv p llmEval fuU = .ok (st2, resp)) :
    ∀ r ∈ st2.answers, r ∈ iv.answers ∨
      (0 ≤ r.score.overall_score ∧ r.score.overall_score ≤ 100 ∧
       0 ≤ r.score.technical ∧ r.score.technical ≤ 100 ∧
       0 ≤ r.score.communication ∧ r.score.communication ≤ 100 ∧
       0 ≤ r.score.depth ∧ r.score.depth ≤ 100 ∧
       0 ≤ r.score.resume_match ∧ r.score.resume_match ≤ 100 ∧
       r.score.resume_bonus = (submit_score_in iv p llmEval).resume_bonus ∧
       (llmEval = none →
         ∃ n : ℤ, r.score.resume_bonus = some (.vint n) ∧ 0 ≤ n ∧ n ≤ 10)) := by
  obtain ⟨_, _, _, hans⟩ := submit_answer_ok_spec iv p llmEval fuU st2 resp h
  intro r hr
  rw [hans, List.mem_append] at hr
  rcases hr with hold | hnew
  · exact Or.inl hold
  · right
    have hrec : r = submit_record iv p llmEval := by simpa using hnew
    subst hrec
    have hsc : (submit_record iv p llmEval).score =
        normalize_score (submit_score_in iv p llmEval) := rfl
    rw [hsc]
    refine ⟨(normalize_int_safe_mem _).1, (normalize_int_safe_mem _).2,
      (normalize_int_safe_mem _).1, (normalize_int_safe_mem _).2,
      (normalize_int_safe_mem _).1, (normalize_int_safe_mem _).2,
      (normalize_int_safe_mem _).1, (normalize_int_safe_mem _).2,
      (normalize_int_safe_mem _).1, (normalize_int_safe_mem _).2, rfl, ?_⟩
    intro hnone
    subst hnone
    have hb := score_resume_bonus_bounds (submit_answer_text p)
      (if submit_qtext iv p ≠ "" then (findWordRuns (submit_qtext iv p).toList).take 12
       else []) p.transcript_meta
    exact ⟨_, rfl, hb.1, hb.2⟩

/-- Witness for the amended C1 at a concrete call. -/
theorem C1_numeric_fields_clamped_witness :
    ∃ st2 resp,
      submit_answer ⟨["q0"], [], []⟩ ⟨0, some ("a"), none⟩
        (some ⟨some (.vint 500), none, some (.vfloat (-3)), none, some (.vstr "bad"),
          none, some (.vint 7), none, none, none, none, none⟩)
        (some (.jstr "fu")) = .ok (st2, resp) ∧
      ∀ r ∈ st2.answers,
        r ∈ (⟨["q0"], [], []⟩ : InterviewState).answers ∨
        (0 ≤ r.score.overall_score ∧ r.score.overall_score ≤ 100 ∧
         0 ≤ r.score.technical ∧ r.score.technical ≤ 100 ∧
         0 ≤ r.score.communication ∧ r.score.communication ≤ 100 ∧
         0 ≤ r.score.depth ∧ r.score.depth ≤ 100 ∧
         0 ≤ r.score.resume_match ∧ r.score.resume_match ≤ 100 ∧
         r.score.resume_bonus =
           (submit_score_in ⟨["q0"], [], []⟩ ⟨0, some ("a"), none⟩
             (some ⟨some (.vint 500), none, some (.vfloat (-3)), none, some (.vstr "bad"),
               none, some (.vint 7), none, none, none, none, none⟩)).resume_bonus ∧
         ((some ⟨some (.vint 500), none, some (.vfloat (-3)), none, some (.vstr "bad"),
             none, some (.vint 7), none, none, none, none, none⟩ :
             Option ScoreIn) = none →
           ∃ n : ℤ, r.score.resume_bonus = some (.vint n) ∧ 0 ≤ n ∧ n ≤ 10)) := by
  refine ⟨_, _, rfl, ?_⟩
  exact C1_numeric_fields_clamped ⟨["q0"], [], []⟩ ⟨0, some ("a"), none⟩
    (some ⟨some (.vint 500), none, some (.vfloat (-3)), none, some (.vstr "bad"),
      none, some (.vint 7), none, none, none, none, none⟩)
    (some (.jstr "fu")) _ _ rfl

/-- C4: every successful `submit_answer` call inserts at most two follow-up
questions, so the new question sequence is the old one with a block of 0-2
items spliced in at `answered_index + 1` (an index that never exceeds the
current length, so the append fallback of the loop is subsumed). -/
theorem C4_follow_ups_bounded_insertion (iv : InterviewState) (p : AnswerPayload)
    (llmEval : Option ScoreIn) (fuU : Option JVal) (st2 : InterviewState)
    (resp : SubmitResp) (h : submit_answer iv p llmEval fuU = .ok (st2, resp)) :
    (∃ k, k ≤ 2 ∧ st2.questions.length = iv.questions.length + k) ∧
    st2.questions = iv.questions.take (p.question_index.toNat + 1) ++
      ((follow_ups_for fuU (submit_qtext iv p)).take 2) ++
      iv.questions.drop (p.question_index.toNat + 1) := by
  obtain ⟨h0, hlt, hq, _⟩ := submit_answer_ok_spec iv p llmEval fuU st2 resp h
  have hpos : p.question_index.toNat + 1 ≤ iv.questions.length := by omega
  rw [insert_follow_ups_spec _ _ _ hpos] at hq
  refine ⟨⟨((follow_ups_for fuU (submit_qtext iv p)).take 2).length, ?_, ?_⟩, hq⟩
  · simp [List.length_take]
  · rw [hq]
    simp [List.length_take, List.length_drop]
    omega

/-- Witness for C4 at a concrete call. -/
theorem C4_follow_ups_bounded_insertion_witness :
    ∃ st2 resp,
      submit_answer ⟨["q0", "q1"], [], []⟩ ⟨0, some ("a"), none⟩
        (some ⟨some (.vint 10), none, none, none, none, none, none, none, none, none,
          none, none⟩) (some (.jstr "fu")) = .ok (st2, resp) ∧
      ∃ k, k ≤ 2 ∧ st2.questions.length = 2 + k := by
  refine ⟨_, _, rfl, ?_⟩
  have h := (C4_follow_ups_bounded_insertion ⟨["q0", "q1"], [], []⟩ ⟨0, some ("a"), none⟩
    (some ⟨some (.vint 10), none, none, none, none, none, none, none, none, none,
      none, none⟩) (some (.jstr "fu")) _ _ rfl).1
  simpa using h

/-- C9: every successful `submit_answer` call strictly grows the question
sequence: by one or two questions, never zero; and when the LLM follow-up
attempt yielded nothing usable the deterministic fallback contributes exactly
two. -/
theorem C9_follow_ups_strict_growth (iv : InterviewState) (p : AnswerPayload)
    (llmEval : Option ScoreIn) (fuU : Option JVal) (st2 : InterviewState)
    (resp : SubmitResp) (h : submit_answer iv p llmEval fuU = .ok (st2, resp)) :
    iv.questions.length + 1 ≤ st2.questions.length ∧
    st2.questions.length ≤ iv.questions.length + 2 ∧
    (llm_follow_ups fuU = [] → st2.questions.length = iv.questions.length + 2) := by
  obtain ⟨h0, hlt, hq, _⟩ := submit_answer_ok_spec iv p llmEval fuU st2 resp h
  have hpos : p.question_index.toNat + 1 ≤ iv.questions.length := by omega
  rw [insert_follow_ups_spec _ _ _ hpos] at hq
  have hlen : st2.questions.length =
      iv.questions.length + ((follow_ups_for fuU (submit_qtext iv p)).take 2).length := by
    rw [hq]
    simp [List.length_take, List.length_drop]
    omega
  obtain ⟨hf1, hf2⟩ := follow_ups_for_len fuU (submit_qtext iv p)
  refine ⟨?_, ?_, ?_⟩
  · rw [hlen]
    simp [List.length_take]
    omega
  · rw [hlen]
    simp [List.length_take]
  · intro hempty
    rw [hlen, follow_ups_for_fallback fuU _ hempty]
    simp [fallback_follow_ups]

/-- Witness for C9 at a concrete call where the LLM follow-up was unusable. -/
theorem C9_follow_ups_strict_growth_witness :
    ∃ st2 resp,
      submit_answer ⟨["q0"], [], []⟩ ⟨0, some ("an answer"), none⟩
        (some ⟨some (.vint 10), none, none, none, none, none, none, none, none, none,
          none, none⟩) none = .ok (st2, resp) ∧
      st2.questions.length = 1 + 2 := by
  refine ⟨_, _, rfl, ?_⟩
  have h := (C9_follow_ups_strict_growth ⟨["q0"], [], []⟩ ⟨0, some ("an answer"), none⟩
    (some ⟨some (.vint 10), none, none, none, none, none, none, none, none, none,
      none, none⟩) none _ _ rfl).2.2 rfl
  simpa using h

/-- C10: `finish_interview` replaces the stored analysis wholesale: the
analysis written at interview start holds exactly the `resume_summary` and
`resume_keywords` keys, and after any successful finish the stored analysis
holds exactly the nine aggregate-report keys, with the start-time keys gone. -/
theorem C10_finish_replaces_analysis (llmQs : List String) (parsed : Parsed)
    (chosen : List String) (summary : JVal) (iv : InterviewState)
    (h : iv.answers ≠ []) (hok : (finish_overalls iv.answers).isSome = true) :
    (start_interview_state llmQs parsed chosen summary).analysis.map Prod.fst =
      ["resume_summary", "resume_keywords"] ∧
    (finish_state iv).analysis.map Prod.fst = analysisKeys ∧
    "resume_summary" ∉ (finish_state iv).analysis.map Prod.fst ∧
    "resume_keywords" ∉ (finish_state iv).analysis.map Prod.fst := by
  have hne : iv.answers.isEmpty = false := by
    simpa [List.isEmpty_iff] using h
  obtain ⟨l, hl⟩ := Option.isSome_iff_exists.mp hok
  have hfin : (finish_state iv).analysis.map Prod.fst = analysisKeys := by
    unfold finish_state finish_interview
    simp [hne, hl, analysisKeys]
  refine ⟨rfl, hfin, ?_, ?_⟩ <;> rw [hfin] <;> decide

/-- Witness for C10 at a one-answer session. -/
theorem C10_finish_replaces_analysis_witness :
    (start_interview_state [] ⟨[], [], []⟩ [] .jnull).analysis.map Prod.fst =
      ["resume_summary", "resume_keywords"] ∧
    (finish_state ⟨["q"],
        [⟨0, "q", "a", ⟨10, 5, 5, 5, 5, none, none, [], [], [], none, none⟩, none⟩],
        [("resume_summary", .ajson .jnull)]⟩).analysis.map Prod.fst = analysisKeys ∧
    "resume_summary" ∉ (finish_state ⟨["q"],
        [⟨0, "q", "a", ⟨10, 5, 5, 5, 5, none, none, [], [], [], none, none⟩, none⟩],
        [("resume_summary", .ajson .jnull)]⟩).analysis.map Prod.fst ∧
    "resume_keywords" ∉ (finish_state ⟨["q"],
        [⟨0, "q", "a", ⟨10, 5, 5, 5, 5, none, none, [], [], [], none, none⟩, none⟩],
        [("resume_summary", .ajson .jnull)]⟩).analysis.map Prod.fst :=
  C10_finish_replaces_analysis [] ⟨[], [], []⟩ [] .jnull
    ⟨["q"], [⟨0, "q", "a", ⟨10, 5, 5, 5, 5, none, none, [], [], [], none, none⟩, none⟩],
      [("resume_summary", .ajson .jnull)]⟩ (by simp) (by decide)

/-- Sixteen distinct LLM-generated questions used to refute C2/C3. -/
def c2_llm : List String :=
  ["L01", "L02", "L03", "L04", "L05", "L06", "L07", "L08",
   "L09", "L10", "L11", "L12", "L13", "L14", "L15", "L16"]

set_option maxRecDepth 16384 in
/-- C2 as frozen is false: when the LLM generation path returns 15 or more
questions (here 16), the resume-targeted portion is not truncated to 15 —
all 16 survive and the full initial sequence has 26 entries (with a
legitimate 10-element fundamentals sample). -/
theorem C2_resume_portion_not_truncated :
    (resume_questions c2_llm ⟨[], [], []⟩).length = 16 ∧
    (final_questions c2_llm ⟨[], [], []⟩
      ((cs_bank_after (resume_questions c2_llm ⟨[], [], []⟩)).take 10)).length = 26 ∧
    IsSample10 (cs_bank_after (resume_questions c2_llm ⟨[], [], []⟩))
      ((cs_bank_after (resume_questions c2_llm ⟨[], [], []⟩)).take 10) := by
  exact ⟨by decide, by decide, by decide⟩

/-- C2 amended: when the LLM path yields fewer than 15 questions the
resume-targeted portion is the first 15 of the deduplicated LLM+heuristic
pool (fewer only when that pool is exhausted); an LLM list of 15 or more is
kept whole, without truncation; in both cases exactly
`min 10 (remaining bank)` fundamentals follow. -/
theorem C2_question_set_sizes (llmQs : List String) (parsed : Parsed)
    (chosen : List String)
    (hs : 10 ≤ (cs_bank_after (resume_questions llmQs parsed)).length →
      IsSample10 (cs_bank_after (resume_questions llmQs parsed)) chosen) :
    (llmQs.length < 15 →
      (resume_questions llmQs parsed).length =
        min 15 (resume_supplement llmQs parsed).length) ∧
    (llmQs ≠ [] → 15 ≤ llmQs.length → resume_questions llmQs parsed = llmQs) ∧
    (final_questions llmQs parsed chosen).length =
      (resume_questions llmQs parsed).length +
        min 10 (cs_bank_after (resume_questions llmQs parsed)).length := by
  obtain ⟨-, -, hlen⟩ := cs_to_add_spec (resume_questions llmQs parsed) chosen hs
  refine ⟨?_, ?_, ?_⟩
  · intro hlt
    unfold resume_questions
    rw [if_pos (resume_base_len_lt llmQs parsed hlt)]
    simp [List.length_take, Nat.min_comm]
  · intro hne h15
    unfold resume_questions
    have hbase : resume_questions_base llmQs parsed = llmQs := by
      unfold resume_questions_base
      simp [hne]
    rw [hbase, if_neg (by omega)]
  · unfold final_questions
    simp [hlen]

set_option maxRecDepth 16384 in
/-- Witness for the amended C2 at a concrete resume digest with no usable
LLM questions. -/
theorem C2_question_set_sizes_witness :
    (([] : List String).length < 15 →
      (resume_questions [] ⟨["python"], ["Project: search engine"], ["api"]⟩).length =
        min 15 (resume_supplement [] ⟨["python"], ["Project: search engine"], ["api"]⟩).length) ∧
    (([] : List String) ≠ [] → 15 ≤ ([] : List String).length →
      resume_questions [] ⟨["python"], ["Project: search engine"], ["api"]⟩ = []) ∧
    (final_questions [] ⟨["python"], ["Project: search engine"], ["api"]⟩
        ((cs_bank_after (resume_questions [] ⟨["python"], ["Project: search engine"],
          ["api"]⟩)).take 10)).length =
      (resume_questions [] ⟨["python"], ["Project: search engine"], ["api"]⟩).length +
        min 10 (cs_bank_after (resume_questions [] ⟨["python"], ["Project: search engine"],
          ["api"]⟩)).length :=
  C2_question_set_sizes [] ⟨["python"], ["Project: search engine"], ["api"]⟩
    ((cs_bank_after (resume_questions [] ⟨["python"], ["Project: search engine"],
      ["api"]⟩)).take 10) (fun _ => by decide)

set_option maxRecDepth 16384 in
/-- C3 as frozen is false: an LLM list of 15 copies of one question is used
verbatim, so the combined initial sequence contains duplicate strings even
though the fundamentals sample is legitimate. -/
theorem C3_duplicates_survive :
    ¬ (final_questions (List.replicate 15 ("dup")) ⟨[], [], []⟩
        ((cs_bank_after (resume_questions (List.replicate 15 ("dup"))
          ⟨[], [], []⟩)).take 10)).Nodup ∧
    IsSample10 (cs_bank_after (resume_questions (List.replicate 15 ("dup")) ⟨[], [], []⟩))
      ((cs_bank_after (resume_questions (List.replicate 15 ("dup")) ⟨[], [], []⟩)).take 10) := by
  constructor
  · decide
  · decide

/-- C3 amended: the fundamentals portion is duplicate-free, has exactly
`min 10 (remaining bank)` entries, and never overlaps the resume-targeted
portion; the combined sequence is duplicate-free whenever the resume-targeted
portion is, which always holds when the LLM path yielded fewer than 15
questions — but an LLM list of 15 or more is used verbatim and may introduce
duplicates. -/
theorem C3_fundamentals_distinct (llmQs : List String) (parsed : Parsed)
    (chosen : List String)
    (hs : 10 ≤ (cs_bank_after (resume_questions llmQs parsed)).length →
      IsSample10 (cs_bank_after (resume_questions llmQs parsed)) chosen) :
    (cs_to_add (resume_questions llmQs parsed) chosen).Nodup ∧
    (∀ q ∈ cs_to_add (resume_questions llmQs parsed) chosen,
      q ∉ resume_questions llmQs parsed) ∧
    (cs_to_add (resume_questions llmQs parsed) chosen).length =
      min 10 (cs_bank_after (resume_questions llmQs parsed)).length ∧
    ((resume_questions llmQs parsed).Nodup → (final_questions llmQs parsed chosen).Nodup) ∧
    (llmQs.length < 15 → (resume_questions llmQs parsed).Nodup) := by
  obtain ⟨hnd, hdisj, hlen⟩ := cs_to_add_spec (resume_questions llmQs parsed) chosen hs
  refine ⟨hnd, hdisj, hlen, ?_, resume_questions_nodup_of_lt llmQs parsed⟩
  intro hrn
  unfold final_questions
  rw [List.nodup_append]
  exact ⟨hrn, hnd, fun a ha hb => hdisj a hb ha⟩

set_option maxRecDepth 16384 in
/-- Witness for the amended C3 at a concrete single-question LLM outcome. -/
theorem C3_fundamentals_distinct_witness :
    (cs_to_add (resume_questions ["What is Python?"] ⟨[], [], []⟩)
      ((cs_bank_after (resume_questions ["What is Python?"] ⟨[], [], []⟩)).take 10)).Nodup ∧
    (∀ q ∈ cs_to_add (resume_questions ["What is Python?"] ⟨[], [], []⟩)
        ((cs_bank_after (resume_questions ["What is Python?"] ⟨[], [], []⟩)).take 10),
      q ∉ resume_questions ["What is Python?"] ⟨[], [], []⟩) ∧
    (cs_to_add (resume_questions ["What is Python?"] ⟨[], [], []⟩)
        ((cs_bank_after (resume_questions ["What is Python?"] ⟨[], [], []⟩)).take 10)).length =
      min 10 (cs_bank_after (resume_questions ["What is Python?"] ⟨[], [], []⟩)).length ∧
    ((resume_questions ["What is Python?"] ⟨[], [], []⟩).Nodup →
      (final_questions ["What is Python?"] ⟨[], [], []⟩
        ((cs_bank_after (resume_questions ["What is Python?"] ⟨[], [], []⟩)).take 10)).Nodup) ∧
    ((["What is Python?"] : List String).length < 15 →
      (resume_questions ["What is Python?"] ⟨[], [], []⟩).Nodup) :=
  C3_fundamentals_distinct ["What is Python?"] ⟨[], [], []⟩
    ((cs_bank_after (resume_questions ["What is Python?"] ⟨[], [], []⟩)).take 10)
    (fun _ => by decide)

/-- C8: scoring the empty answer with expected keywords
`["thread", "process"]` and no transcript metadata yields technical = 0,
communication = 0, depth = 0 and overall = 0. -/
theorem C8_empty_answer_zero :
    (score_answer_text ("") ["thread", "process"] none).technical = 0 ∧
    (score_answer_text ("") ["thread", "process"] none).communication = 0 ∧
    (score_answer_text ("") ["thread", "process"] none).depth = 0 ∧
    (score_answer_text ("") ["thread", "process"] none).overall_score = 0 := by
  with_unfolding_all exact ⟨rfl, rfl, rfl, rfl⟩

end Interview
